import Mathlib

/-!
Shallow embedding of the crypto-arbitrage bot microservices
(arb_engine, market_data, execution, funds_router, common) in Lean 4,
together with theorems settling the specification claims C1..C10.

Numeric values are modelled exactly over the rationals.  Python dict
attribute access that can raise KeyError is modelled as an association-list
lookup returning Option / Except.  Time is modelled in whole one-second
poll ticks where a loop sleeps one second per iteration.
Environment-variable driven configuration is taken at its documented
defaults (common/config.py).
-/

namespace CryptoArb

/-! ### Configuration constants (common/config.py, defaults) -/

/-- MIN_PROFIT_MARGIN default 0.003 (common/config.py line 84). -/
def MIN_PROFIT_MARGIN : ℚ := 3 / 1000

/-- VOLATILITY_THRESHOLD default 0.03 (common/config.py line 88). -/
def VOLATILITY_THRESHOLD : ℚ := 3 / 100

/-- VOLATILITY_WINDOW default 300 seconds (common/config.py line 89). -/
def VOLATILITY_WINDOW : ℚ := 300

/-- Per-venue fee configuration; `taker_fee` / `maker_fee` are absent for
the DEX entries ("uniswap", "1inch"), matching common/config.py. -/
structure ExchangeConfig where
  taker_fee : Option ℚ
  maker_fee : Option ℚ
deriving Repr, DecidableEq

/-- The EXCHANGES table of common/config.py at default env values:
okx, bybit, htx carry taker_fee 0.001 and maker_fee 0.0008; the two DEX
entries have no taker/maker keys. -/
def EXCHANGES : List (String × ExchangeConfig) :=
  [("okx", ⟨some (1 / 1000), some (8 / 10000)⟩),
   ("bybit", ⟨some (1 / 1000), some (8 / 10000)⟩),
   ("htx", ⟨some (1 / 1000), some (8 / 10000)⟩),
   ("uniswap", ⟨none, none⟩),
   ("1inch", ⟨none, none⟩)]

/-- Python `EXCHANGES.get(exchange, \x7b\x7d)`: association-list lookup. -/
def lookupExchange (exchange : String) : Option ExchangeConfig :=
  (EXCHANGES.find? (fun p => p.1 == exchange)).map Prod.snd

/-! ### calculate_effective_price (arb_engine/main.py lines 43-61) -/

/-- Fee-rate resolution of arb_engine/main.py line 48:
`exchange_config.get(taker_fee, 0.001)` when buying, else
`exchange_config.get(maker_fee, 0.0008)`; a venue absent from EXCHANGES
yields the empty config, so the same defaults apply. -/
def feeRate (exchange : String) (is_buy : Bool) : ℚ :=
  let cfg := lookupExchange exchange
  if is_buy then ((cfg.bind (fun c => c.taker_fee)).getD (1 / 1000))
  else ((cfg.bind (fun c => c.maker_fee)).getD (8 / 10000))

/-- Slippage constant of arb_engine/main.py line 51 (0.0005). -/
def slippage : ℚ := 5 / 10000

/-- calculate_effective_price of arb_engine/main.py lines 43-61. -/
def calculate_effective_price (price : ℚ) (exchange : String) (is_buy : Bool) : ℚ :=
  let fee_rate := feeRate exchange is_buy
  if is_buy then price * (1 + fee_rate + slippage)
  else price * (1 - fee_rate - slippage)

/-- Modelled from the claim wording of C7: effective buy price is
`price * (1 + taker_fee + slippage)` and effective sell price is
`price * (1 - maker_fee - slippage)`, with slippage the constant 0.0005
and fee rates taken from the venue configuration, defaulting to taker
0.001 and maker 0.0008 when the configuration carries no rate. -/
def claimedEffectivePrice (price : ℚ) (exchange : String) (is_buy : Bool) : ℚ :=
  let taker : ℚ := ((lookupExchange exchange).bind (fun c => c.taker_fee)).getD (1 / 1000)
  let maker : ℚ := ((lookupExchange exchange).bind (fun c => c.maker_fee)).getD (8 / 10000)
  if is_buy then price * (1 + taker + 5 / 10000)
  else price * (1 - maker - 5 / 10000)

/-- C7: for every positive price, the effective price of a buy is
price * (1 + taker_fee + slippage) and of a sell is
price * (1 - maker_fee - slippage), where slippage is the constant 0.0005
and the fee rates come from the venue configuration, with defaults taker
0.001 and maker 0.0008 when no rate is configured (in particular for an
unknown venue). -/
theorem c7_effective_price_formula (price : ℚ) (exchange : String) (is_buy : Bool)
    (_h : 0 < price) :
    calculate_effective_price price exchange is_buy =
      claimedEffectivePrice price exchange is_buy := by
  cases is_buy <;>
    simp [calculate_effective_price, claimedEffectivePrice, feeRate, slippage]

/-- Witness for c7_effective_price_formula at price 3 on venue okx. -/
theorem c7_effective_price_witness :
    0 < (3 : ℚ) ∧
      calculate_effective_price 3 "okx" true = claimedEffectivePrice 3 "okx" true :=
  ⟨by norm_num, c7_effective_price_formula 3 "okx" true (by norm_num)⟩

/-! ### Price graph edges (arb_engine/main.py lines 156-183) -/

/-- Edge direction of trade: buy converts quote to base, sell base to quote. -/
inductive Side where
  | buy : Side
  | sell : Side
deriving Repr, DecidableEq

/-- An edge of the price graph as added by update_price_graph
(arb_engine/main.py lines 160-178): endpoints plus the stored attributes
exchange, price, effective_price, action. -/
structure GraphEdge where
  src : String
  dst : String
  exchange : String
  price : ℚ
  effective_price : ℚ
  action : Side
deriving Repr, DecidableEq

/-- Gain factor along an edge: amount of destination currency obtained per
unit of source currency (arb_engine/main.py lines 198-199 comments):
1/effective_price for a buy, effective_price for a sell. -/
def gain (action : Side) (effective_price : ℚ) : ℚ :=
  match action with
  | .buy => 1 / effective_price
  | .sell => effective_price

/-- Product of effective gains around a list of edges. -/
def gainProduct (edges : List GraphEdge) : ℚ :=
  edges.foldl (fun acc e => acc * gain e.action e.effective_price) 1

/-! ### find_negative_cycles (arb_engine/main.py lines 187-246) -/

/-- Weight assigned by find_negative_cycles (lines 200-203): despite the
comments speaking of a negative log, the code assigns
-1 * (1 / effective_price) for a buy edge and -1 * effective_price for a
sell edge, with no logarithm taken. -/
def codeWeight (action : Side) (effective_price : ℚ) : ℚ :=
  match action with
  | .buy => -1 * (1 / effective_price)
  | .sell => -1 * effective_price

/-- A weighted edge of the log_graph built at lines 190-205. -/
structure WEdge where
  u : String
  v : String
  weight : ℚ
deriving Repr, DecidableEq

/-- Construction of log_graph edge weights (lines 192-205): edges with
non-positive effective price are skipped, the rest get codeWeight. -/
def buildLogEdges (edges : List GraphEdge) : List WEdge :=
  (edges.filter (fun e => 0 < e.effective_price)).map
    (fun e => ⟨e.src, e.dst, codeWeight e.action e.effective_price⟩)

/-- Distance map of the Bellman-Ford pass, as a finite association list;
a missing entry models the initial float inf (lines 214-216). -/
def distGet (dist : List (String × ℚ)) (x : String) : Option ℚ :=
  (dist.find? (fun p => p.1 == x)).map Prod.snd

/-- Update of the distance map at one node. -/
def distSet (dist : List (String × ℚ)) (x : String) (q : ℚ) : List (String × ℚ) :=
  (x, q) :: dist.filter (fun p => p.1 != x)

/-- One relaxation of a single edge (lines 221-223); inf + w stays inf and
inf < inf is false, so a finite distance always beats a missing one. -/
def relaxStep (dist : List (String × ℚ)) (e : WEdge) : List (String × ℚ) :=
  match distGet dist e.u with
  | none => dist
  | some du =>
    match distGet dist e.v with
    | none => distSet dist e.v (du + e.weight)
    | some dv =>
      if du + e.weight < dv then distSet dist e.v (du + e.weight) else dist

/-- One pass over all edges (lines 220-223). -/
def relaxPass (edges : List WEdge) (dist : List (String × ℚ)) : List (String × ℚ) :=
  edges.foldl relaxStep dist

/-- The negative-cycle test of lines 226-227: an edge that still relaxes. -/
def edgeRelaxes (dist : List (String × ℚ)) (e : WEdge) : Bool :=
  match distGet dist e.u with
  | none => false
  | some du =>
    match distGet dist e.v with
    | none => true
    | some dv => decide (du + e.weight < dv)

/-- Bellman-Ford negative-cycle detection from one source
(lines 213-227): nodes.length - 1 relaxation passes, then report whether
any edge still relaxes. -/
def bellmanFordDetect (nodes : List String) (edges : List WEdge) (source : String) : Bool :=
  let init : List (String × ℚ) := [(source, 0)]
  let final := (List.range (nodes.length - 1)).foldl (fun d _ => relaxPass edges d) init
  edges.any (edgeRelaxes final)

/-- find_negative_cycles reports at least one negative cycle exactly when
detection fires from some source node (lines 211-241). -/
def findNegativeCycleDetected (nodes : List String) (edges : List GraphEdge) : Bool :=
  nodes.any (bellmanFordDetect nodes (buildLogEdges edges))

/-- A two-edge cycle whose product of effective gains is 1/2 < 1:
buy BTC with USDT at effective price 2 (gain 1/2), sell BTC for USDT at
effective price 1 (gain 1). -/
def edgeBuyBTC : GraphEdge := ⟨"USDT", "BTC", "okx", 2, 2, .buy⟩

/-- The sell edge of the unprofitable example cycle. -/
def edgeSellBTC : GraphEdge := ⟨"BTC", "USDT", "bybit", 1, 1, .sell⟩

/-- The unprofitable example cycle USDT -> BTC -> USDT. -/
def exampleEdges : List GraphEdge := [edgeBuyBTC, edgeSellBTC]

/-- C1: the cycle finder is claimed to assign log-space weight -ln(g) and
to report a cycle as negative iff the product of effective gains exceeds 1.
The code at arb_engine/main.py lines 200-203 assigns weight -g with no
logarithm, so its Bellman-Ford pass flags the example cycle as negative
although its product of gains is 1/2 < 1: the claimed equivalence fails. -/
theorem c1_detector_fires_below_unit_gain :
    findNegativeCycleDetected ["USDT", "BTC"] exampleEdges = true ∧
      gainProduct exampleEdges < 1 := by
  constructor
  · simp only [findNegativeCycleDetected, bellmanFordDetect, relaxPass, relaxStep,
      edgeRelaxes, distGet, distSet, buildLogEdges, codeWeight, exampleEdges,
      edgeBuyBTC, edgeSellBTC, List.range, List.range.loop, List.foldl, List.any,
      List.filter, List.map, List.find?]
    repeat (first | rfl | simp | norm_num)
  · norm_num [gainProduct, exampleEdges, edgeBuyBTC, edgeSellBTC, gain, List.foldl]

/-! ### Edge attribute dictionaries and the best-edge lookup
(arb_engine/main.py lines 248-271) -/

/-- A Python edge-attribute value: a string or a number. -/
inductive AttrVal where
  | str : String → AttrVal
  | num : ℚ → AttrVal
deriving Repr, DecidableEq

/-- String form of an action, as stored by update_price_graph. -/
def sideStr : Side → String
  | .buy => "buy"
  | .sell => "sell"

/-- The attribute dictionary stored on an edge by update_price_graph
(arb_engine/main.py lines 160-178): exactly the keyword arguments
exchange, price, effective_price and action. No base or quote key is
ever stored. -/
def attrsOfEdge (e : GraphEdge) : List (String × AttrVal) :=
  [("exchange", .str e.exchange), ("price", .num e.price),
   ("effective_price", .num e.effective_price), ("action", .str (sideStr e.action))]

/-- Python dict subscript: value at the key, or a raised KeyError. -/
def dictGet (d : List (String × AttrVal)) (k : String) : Except String AttrVal :=
  match d.find? (fun p => p.1 == k) with
  | some p => .ok p.2
  | none => .error ("KeyError: " ++ k)

/-- Python equality between an attribute value and a string. -/
def attrEqStr (a : AttrVal) (s : String) : Bool :=
  match a with
  | .str t => t == s
  | .num _ => false

/-- Python comparison of an attribute value against a number; comparing a
string against a number raises TypeError. -/
def attrAsNum (a : AttrVal) : Except String ℚ :=
  match a with
  | .num q => .ok q
  | .str _ => .error "TypeError"

/-- One iteration of the best-edge loop of analyze_arbitrage_cycle
(arb_engine/main.py lines 260-268), with Python short-circuit order:
data[action] is read first; when it equals buy, data[quote] is read
(raising KeyError when absent); when it instead equals sell, data[base]
is read. -/
def bestEdgeStep (u v : String) (best : Option (List (String × AttrVal)) × ℚ)
    (data : List (String × AttrVal)) :
    Except String (Option (List (String × AttrVal)) × ℚ) := do
  let act ← dictGet data "action"
  let buyMatch ←
    if attrEqStr act "buy" then do
      let q ← dictGet data "quote"
      if attrEqStr q u then do
        let b ← dictGet data "base"
        pure (attrEqStr b v)
      else pure false
    else pure false
  if buyMatch then do
    let ep ← attrAsNum (← dictGet data "effective_price")
    if best.1.isNone || ep < best.2 then pure (some data, ep) else pure best
  else do
    let sellMatch ←
      if attrEqStr act "sell" then do
        let b ← dictGet data "base"
        if attrEqStr b u then do
          let q ← dictGet data "quote"
          pure (attrEqStr q v)
        else pure false
      else pure false
    if sellMatch then do
      let ep ← attrAsNum (← dictGet data "effective_price")
      if best.1.isNone || best.2 < ep then pure (some data, ep) else pure best
    else pure best

/-- The best-edge search of analyze_arbitrage_cycle (lines 256-268): fold
over all edge data dictionaries of the price graph starting from
best_edge None, best_price 0. -/
def findBestEdge (edges : List (List (String × AttrVal))) (u v : String) :
    Except String (Option (List (String × AttrVal)) × ℚ) :=
  edges.foldlM (fun best data => bestEdgeStep u v best data) (none, 0)

/-- C3: the claim says that for each consecutive cycle step (u, v) the
analyzer selects among all price-graph edges joining u to v the one with
minimal (buy) or maximal (sell) effective price. On the code the selection
loop reads data[quote] (for a buy edge) or data[base] (for a sell edge),
attributes which update_price_graph never stores, so already on a graph
holding the single buy edge USDT -> BTC the loop raises KeyError instead
of selecting an edge. -/
theorem c3_best_edge_lookup_keyerror :
    findBestEdge [attrsOfEdge edgeBuyBTC] "USDT" "BTC" =
      Except.error "KeyError: quote" := rfl

/-! ### Cycle analysis and persistence
(arb_engine/main.py lines 248-344 and 372-443) -/

/-- A chosen cycle edge (u, v, data) as accumulated in cycle_edges. -/
structure CycleEdge where
  u : String
  v : String
  data : GraphEdge
deriving Repr, DecidableEq

/-- One conversion step of the profit fold (lines 278-284): a buy divides
the running amount by the effective price, a sell multiplies by it. -/
def gainStep (amount : ℚ) (e : GraphEdge) : ℚ :=
  match e.action with
  | .buy => amount / e.effective_price
  | .sell => amount * e.effective_price

/-- The amount after trading 1 unit around the chosen edges
(lines 274-284); equals the product of effective gains. -/
def cycleAmount (edges : List CycleEdge) : ℚ :=
  edges.foldl (fun a ce => gainStep a ce.data) 1

/-- Display pair of a cycle edge (lines 313-318). -/
def pairOfCycleEdge (ce : CycleEdge) : String :=
  match ce.data.action with
  | .buy => ce.v ++ "/" ++ ce.u
  | .sell => ce.u ++ "/" ++ ce.v

/-- Python substring containment test (the in operator on strings). -/
def strContainsSub (s sub : String) : Bool :=
  s.data.tails.any (fun t => sub.data.isPrefixOf t)

/-- Main-pair selection (lines 320-329): the first pair containing USDT
or USD, else the first pair, else none. -/
def selectMainPair (pairs : List String) : Option String :=
  match pairs.find? (fun p => strContainsSub p "USDT" || strContainsSub p "USD") with
  | some p => some p
  | none => pairs.head?

/-- The dictionary returned by analyze_arbitrage_cycle (lines 335-344). -/
structure Opportunity where
  cycle : List String
  edges : List CycleEdge
  profit_margin : ℚ
  exchanges : List String
  pairs : List String
  main_pair : Option String
  volume : ℚ
deriving Repr, DecidableEq

/-- analyze_arbitrage_cycle from the chosen cycle_edges onward
(lines 273-344): compute profit_margin as the cycle amount minus one,
return None when it is below MIN_PROFIT_MARGIN, then run the volatility
gate (its verdict abstracted as volOk; see avgPriceSample and
check_volatility for its internals), and otherwise return the formatted
opportunity with volume fixed at 1000. -/
def analyzeFromEdges (cycle : List String) (cycle_edges : List CycleEdge)
    (volOk : Bool) : Option Opportunity :=
  let profit_margin := cycleAmount cycle_edges - 1
  if profit_margin < MIN_PROFIT_MARGIN then none
  else if !volOk then none
  else
    let pairs := cycle_edges.map pairOfCycleEdge
    some { cycle := cycle, edges := cycle_edges, profit_margin := profit_margin,
           exchanges := cycle_edges.map (fun ce => ce.data.exchange),
           pairs := pairs, main_pair := selectMainPair pairs, volume := 1000 }

/-- A persisted arbitrage_opportunities row
(common/database.py via add_arbitrage_opportunity, fields of
process_arbitrage_opportunity lines 407-416). -/
structure DBOpportunity where
  pair : String
  buy_exchange : String
  sell_exchange : String
  buy_price : ℚ
  sell_price : ℚ
  volume : ℚ
  profit_margin : ℚ
deriving Repr, DecidableEq

/-- process_arbitrage_opportunity (lines 372-443): return early with no
row when main_pair is falsy or fewer than two exchanges are involved;
otherwise persist a row carrying the opportunity profit_margin
unchanged. -/
def processOpportunity (opp : Opportunity) : Option DBOpportunity :=
  match opp.main_pair with
  | none => none
  | some mp =>
    if mp == "" then none
    else if opp.exchanges.length < 2 then none
    else
      some { pair := mp,
             buy_exchange := opp.exchanges.headD "",
             sell_exchange := opp.exchanges.getLastD "",
             buy_price := ((opp.edges.head?).map (fun ce => ce.data.price)).getD 0,
             sell_price := ((opp.edges.getLast?).map (fun ce => ce.data.price)).getD 0,
             volume := opp.volume,
             profit_margin := opp.profit_margin }

/-- C4: every opportunity row ever persisted has
profit_margin >= MIN_PROFIT_MARGIN at the time of persistence, because
analyze_arbitrage_cycle returns None (and nothing is stored) whenever the
product of effective gains minus one is below MIN_PROFIT_MARGIN. -/
theorem c4_persisted_margin_meets_minimum (cycle : List String)
    (cycle_edges : List CycleEdge) (volOk : Bool) :
    (cycleAmount cycle_edges - 1 < MIN_PROFIT_MARGIN →
      analyzeFromEdges cycle cycle_edges volOk = none) ∧
    (∀ row : DBOpportunity,
      (analyzeFromEdges cycle cycle_edges volOk).bind processOpportunity = some row →
      MIN_PROFIT_MARGIN ≤ row.profit_margin) := by
  constructor
  · intro hlow
    simp [analyzeFromEdges, hlow]
  · intro row hrow
    by_cases hlow : cycleAmount cycle_edges - 1 < MIN_PROFIT_MARGIN
    · simp [analyzeFromEdges, hlow] at hrow
    · by_cases hvol : volOk
      · simp only [analyzeFromEdges, if_neg hlow, hvol, Bool.not_true,
          Bool.false_eq_true, if_false, Option.some_bind] at hrow
        unfold processOpportunity at hrow
        rcases hsel : selectMainPair (cycle_edges.map pairOfCycleEdge) with _ | mp <;>
          simp only [hsel] at hrow
        · simp at hrow
        · by_cases h1 : (mp == "") = true
          · simp [h1] at hrow
          · by_cases h2 : (cycle_edges.map (fun ce => ce.data.exchange)).length < 2
            · rw [List.length_map] at h2
              simp [h1] at hrow
              exact absurd hrow.1 (not_le.mpr h2)
            · rw [if_neg h1, if_neg h2] at hrow
              injection hrow with h3
              subst h3
              exact le_of_not_lt hlow
      · simp [analyzeFromEdges, hvol] at hrow

/-- Edges whose cycle amount is 1 (margin 0 below the minimum). -/
def lowEdges : List CycleEdge := [⟨"BTC", "USDT", edgeSellBTC⟩]

/-- A two-edge cycle with margin 1: buy BTC at effective price 1/2,
sell at effective price 1. -/
def goodEdges : List CycleEdge :=
  [⟨"USDT", "BTC", ⟨"USDT", "BTC", "okx", 1/2, 1/2, .buy⟩⟩,
   ⟨"BTC", "USDT", edgeSellBTC⟩]

/-- The row persisted for goodEdges. -/
def goodRow : DBOpportunity := ⟨"BTC/USDT", "okx", "bybit", 1/2, 1, 1000, 1⟩

/-- Witness for c4_persisted_margin_meets_minimum: the low-margin cycle is
rejected, and the concrete row persisted for the profitable cycle meets
the minimum margin. -/
theorem c4_persisted_margin_witness :
    analyzeFromEdges ["BTC", "USDT"] lowEdges true = none ∧
    MIN_PROFIT_MARGIN ≤ goodRow.profit_margin :=
  ⟨(c4_persisted_margin_meets_minimum ["BTC", "USDT"] lowEdges true).1 (by
      norm_num [cycleAmount, lowEdges, edgeSellBTC, gainStep, MIN_PROFIT_MARGIN, List.foldl]),
   (c4_persisted_margin_meets_minimum ["USDT", "BTC"] goodEdges true).2 goodRow (by
      have hamt : cycleAmount goodEdges = 2 := by
        norm_num [cycleAmount, goodEdges, edgeSellBTC, gainStep, List.foldl]
      have hmp : selectMainPair (List.map pairOfCycleEdge goodEdges) = some "BTC/USDT" := by
        decide
      simp only [analyzeFromEdges, hamt, hmp]
      repeat (first
        | rfl
        | simp [processOpportunity, goodEdges, edgeSellBTC, goodRow, MIN_PROFIT_MARGIN]
        | norm_num [MIN_PROFIT_MARGIN]))⟩

/-! ### Volatility gate sampling (arb_engine/main.py lines 293-308, 63-91) -/

/-- A cached ticker with bid and ask. -/
structure Ticker where
  bid : ℚ
  ask : ℚ
deriving Repr, DecidableEq

/-- The volatility-gate sample of arb_engine/main.py lines 303-304 with
Python operator precedence: each per-venue price is bid + (ask / 2), and
the pushed sample is their average (0 when there are no tickers). -/
def avgPriceSample (tickers : List Ticker) : ℚ :=
  let prices := tickers.map (fun t => t.bid + t.ask / 2)
  if prices.isEmpty then 0 else prices.sum / prices.length

/-- Modelled from the claim wording of C6: the average over venues of the
mid price (bid + ask) / 2. -/
def claimedMidSample (tickers : List Ticker) : ℚ :=
  let prices := tickers.map (fun t => (t.bid + t.ask) / 2)
  if prices.isEmpty then 0 else prices.sum / prices.length

/-- C6: the claim says the sample pushed into the per-pair PriceHistory is
the average over venues of the mid price (bid + ask) / 2. The code of
line 303 computes bid + ask / 2 instead: for a single venue with bid 100
and ask 102 it pushes 151 where the mid price is 101. -/
theorem c6_volatility_sample_precedence :
    avgPriceSample [⟨100, 102⟩] = 151 ∧ claimedMidSample [⟨100, 102⟩] = 101 := by
  constructor <;> norm_num [avgPriceSample, claimedMidSample]

/-- History pruning of check_volatility (arb_engine/main.py lines 68-74):
append the current sample at the current timestamp, then keep entries with
t >= ts - VOLATILITY_WINDOW. -/
def pruneAndAppend (hist : List (ℚ × ℚ)) (ts price : ℚ) : List (ℚ × ℚ) :=
  (hist ++ [(ts, price)]).filter (fun tp => ts - VOLATILITY_WINDOW ≤ tp.1)

/-- Minimum of a price list (Python min on a nonempty list). -/
def listMin : List ℚ → ℚ
  | [] => 0
  | p :: ps => ps.foldl min p

/-- Maximum of a price list (Python max on a nonempty list). -/
def listMax : List ℚ → ℚ
  | [] => 0
  | p :: ps => ps.foldl max p

/-- check_volatility (arb_engine/main.py lines 63-91): push and prune the
pair history, accept when fewer than two samples remain, reject when the
minimum price is non-positive, else compare (max - min)/min with
VOLATILITY_THRESHOLD. Returns the verdict and the updated history. -/
def check_volatility (hist : List (ℚ × ℚ)) (ts price : ℚ) : Bool × List (ℚ × ℚ) :=
  let h2 := pruneAndAppend hist ts price
  if h2.length < 2 then (true, h2)
  else
    let prices := h2.map Prod.snd
    let min_price := listMin prices
    let max_price := listMax prices
    if min_price ≤ 0 then (false, h2)
    else (decide ((max_price - min_price) / min_price ≤ VOLATILITY_THRESHOLD), h2)

/-- C10: whenever fewer than two samples remain after appending the
current sample and pruning the window, check_volatility returns True; in
particular the first-ever check of a pair (empty history) always passes,
whatever the sampled price. -/
theorem c10_short_history_passes_gate (hist : List (ℚ × ℚ)) (ts price : ℚ) :
    ((pruneAndAppend hist ts price).length < 2 →
      (check_volatility hist ts price).1 = true) ∧
    (check_volatility [] ts price).1 = true := by
  constructor
  · intro hshort
    simp [check_volatility, hshort]
  · have hwin : (0 : ℚ) ≤ VOLATILITY_WINDOW := by norm_num [VOLATILITY_WINDOW]
    have hkeep : ts - VOLATILITY_WINDOW ≤ ts := by linarith
    have hprune : pruneAndAppend [] ts price = [(ts, price)] := by
      simp [pruneAndAppend, hkeep, hwin]
    simp [check_volatility, hprune]

/-- Witness for c10_short_history_passes_gate at an empty history,
timestamp 0 and price 7. -/
theorem c10_short_history_witness :
    (check_volatility [] 0 7).1 = true :=
  (c10_short_history_passes_gate [] 0 7).1 (by
    norm_num [pruneAndAppend, VOLATILITY_WINDOW])

/-! ### Market data fanout (market_data/main.py) -/

/-- TOP_TRADING_PAIRS of common/config.py lines 110-121. -/
def TOP_TRADING_PAIRS : List String :=
  ["BTC/USDT", "ETH/USDT", "BNB/USDT", "XRP/USDT", "SOL/USDT",
   "ADA/USDT", "AVAX/USDT", "DOGE/USDT", "DOT/USDT", "MATIC/USDT",
   "LINK/USDT", "LTC/USDT", "UNI/USDT", "ATOM/USDT", "ETC/USDT",
   "XLM/USDT", "NEAR/USDT", "ALGO/USDT", "FIL/USDT", "APE/USDT",
   "MANA/USDT", "SAND/USDT", "AXS/USDT", "AAVE/USDT", "EGLD/USDT",
   "XMR/USDT", "THETA/USDT", "EOS/USDT", "CAKE/USDT", "XTZ/USDT",
   "ZEC/USDT", "FLOW/USDT", "KCS/USDT", "NEO/USDT", "IOTA/USDT",
   "BTT/USDT", "KLAY/USDT", "BSV/USDT", "DASH/USDT", "MKR/USDT",
   "XEM/USDT", "HNT/USDT", "CHZ/USDT", "BAT/USDT", "ENJ/USDT",
   "ZIL/USDT", "WAVES/USDT", "COMP/USDT", "QTUM/USDT", "OMG/USDT"]

/-- The market-data service state: the venues holding an initialized
adapter in exchange_instances, and the consecutive error counters of
connection_status (market_data/main.py lines 26-29). -/
structure MDState where
  instances : List String
  errorCount : List (String × ℕ)
deriving Repr, DecidableEq

/-- Lookup of a venue error counter; none models a venue absent from
connection_status. -/
def getCount (st : MDState) (venue : String) : Option ℕ :=
  (st.errorCount.find? (fun p => p.1 == venue)).map Prod.snd

/-- Overwrite of a venue error counter. -/
def setCount (st : MDState) (venue : String) (n : ℕ) : MDState :=
  { st with errorCount := (venue, n) :: st.errorCount.filter (fun p => p.1 != venue) }

/-- close_exchange_connection (market_data/main.py lines 179-187): pop
the adapter from exchange_instances. -/
def closeConnection (st : MDState) (venue : String) : MDState :=
  { st with instances := st.instances.filter (fun x => x != venue) }

/-- fetch_ticker_data (market_data/main.py lines 93-139) on one venue and
pair. The outcome of the external calls is supplied by the parameters:
initOk tells whether initialize_exchange would succeed when the adapter
is missing, fetchOk whether fetch_ticker succeeds. On success the error
counter resets to 0; on failure it is incremented when the venue has a
connection_status entry, and when the new count exceeds 5 the adapter is
closed and removed. -/
def fetchTickerData (st : MDState) (venue : String) (initOk fetchOk : Bool) : MDState :=
  if st.instances.contains venue then
    if fetchOk then setCount st venue 0
    else
      match getCount st venue with
      | none => st
      | some n =>
        let st2 := setCount st venue (n + 1)
        if n + 1 > 5 then closeConnection st2 venue else st2
  else if initOk then
    let st1 := setCount { st with instances := venue :: st.instances } venue 0
    if fetchOk then setCount st1 venue 0
    else
      match getCount st1 venue with
      | none => st1
      | some n =>
        let st2 := setCount st1 venue (n + 1)
        if n + 1 > 5 then closeConnection st2 venue else st2
  else setCount st venue 1

/-- The task list built by one iteration of fetch_all_tickers
(market_data/main.py lines 210-220): for each configured venue and pair,
a fetch task is created only when the venue has an adapter instance and
the instance's market list supports the pair; a venue with no instance is
skipped with continue. -/
def tickerLoopTasks (st : MDState) (markets : String → String → Bool) :
    List (String × String) :=
  (EXCHANGES.map Prod.fst).flatMap (fun ex =>
    if st.instances.contains ex then
      (TOP_TRADING_PAIRS.filter (fun pair => markets ex pair)).map (fun pair => (ex, pair))
    else [])

/-- One full iteration of the fetch_all_tickers loop (lines 207-233):
build the task list from the current state, then run every
fetch_ticker_data task. -/
def runTickerIteration (st : MDState) (markets : String → String → Bool)
    (initOk fetchOk : String → String → Bool) : MDState :=
  (tickerLoopTasks st markets).foldl
    (fun s t => fetchTickerData s t.1 (initOk t.1 t.2) (fetchOk t.1 t.2)) st

/-- State of a venue okx holding an adapter with 5 consecutive errors. -/
def mdStateAtThreshold : MDState := ⟨["okx"], [("okx", 5)]⟩

/-- C2: when a venue's consecutive error count crosses the bound of 5,
the adapter is indeed closed and removed, but the claim that the
following ticker loop iteration reinitializes it fails: fetch_all_tickers
skips every venue without an adapter instance (the continue of
market_data/main.py lines 215-217), so no fetch task and hence no
reinitialization ever happens for it again. Concretely, after the sixth
consecutive error on okx the next full loop iteration creates no task at
all and leaves the venue uninitialized. -/
theorem c2_removed_adapter_not_reinitialized :
    (fetchTickerData mdStateAtThreshold "okx" true false).instances = [] ∧
    tickerLoopTasks (fetchTickerData mdStateAtThreshold "okx" true false)
      (fun _ _ => true) = [] ∧
    runTickerIteration (fetchTickerData mdStateAtThreshold "okx" true false)
      (fun _ _ => true) (fun _ _ => true) (fun _ _ => true) =
      fetchTickerData mdStateAtThreshold "okx" true false := by
  refine ⟨?_, ?_, ?_⟩ <;>
    simp [fetchTickerData, mdStateAtThreshold, getCount, setCount, closeConnection,
      runTickerIteration, tickerLoopTasks, EXCHANGES, TOP_TRADING_PAIRS, List.find?,
      List.foldl, List.filter]

/-! ### Execution coordinator (execution/main.py lines 191-347)

Time is modelled in whole one-second ticks: the fill-wait loop of
lines 293-331 sleeps one second per iteration and runs while the elapsed
time is below 60 seconds, so it performs at most 60 polls at 1 Hz. -/

/-- Trade row statuses written by the coordinator. -/
inductive TradeStatus where
  | OPEN : TradeStatus
  | FILLED : TradeStatus
  | FAILED : TradeStatus
  | CANCELED : TradeStatus
deriving Repr, DecidableEq

/-- One leg of an opportunity cycle: the (u, v, data) fields the
coordinator reads at lines 213-216. -/
structure Leg where
  u : String
  v : String
  exchange : String
  action : Side
  price : ℚ
deriving Repr, DecidableEq

/-- The traded pair of a leg (lines 219-224). -/
def legPair (l : Leg) : String :=
  match l.action with
  | .buy => l.v ++ "/" ++ l.u
  | .sell => l.u ++ "/" ++ l.v

/-- Relevant ticker side for a leg (line 236): ask for a buy, bid for a
sell. -/
def currentPrice (action : Side) (tk : Ticker) : ℚ :=
  match action with
  | .buy => tk.ask
  | .sell => tk.bid

/-- The price-drift predicate of line 246: a buy has drifted when the
current price exceeds planned * 1.005, a sell when it is below
planned * 0.995. -/
def driftBad (action : Side) (planned current : ℚ) : Bool :=
  match action with
  | .buy => decide (planned * (1005 / 1000) < current)
  | .sell => decide (current < planned * (995 / 1000))

/-- External world of the coordinator: the cached ticker per venue and
pair, whether placing leg i's order succeeds, and the order status
observed for leg i at poll second t (none models a failed status
fetch). -/
structure ExecEnv where
  ticker : String → String → Option Ticker
  placeOrderOk : ℕ → Bool
  orderStatus : ℕ → ℕ → Option String

/-- Mutable execution state: the opportunity status, the Trade rows
created (keyed by leg index), the orders placed, and the orders
canceled. -/
structure ExecState where
  oppStatus : String
  trades : List (ℕ × TradeStatus)
  placedOrders : List ℕ
  canceledOrders : List ℕ
deriving Repr, DecidableEq

/-- The initial state after the EXECUTING update of line 202. -/
def initExecState : ExecState := ⟨"EXECUTING", [], [], []⟩

/-- Record a new OPEN trade and its placed order for leg i
(lines 270-291). -/
def addTrade (st : ExecState) (i : ℕ) : ExecState :=
  { st with trades := st.trades ++ [(i, .OPEN)],
            placedOrders := st.placedOrders ++ [i] }

/-- update_trade_status for leg i. -/
def setTrade (st : ExecState) (i : ℕ) (status : TradeStatus) : ExecState :=
  { st with trades := st.trades.map (fun p => if p.1 == i then (p.1, status) else p) }

/-- Cancel every placed order except the optional excluded one
(the rollback loops of lines 230-232, 248-250, 312-314, 326-328). -/
def cancelPrev (st : ExecState) (exceptO : Option ℕ) : ExecState :=
  { st with canceledOrders := st.canceledOrders ++
      st.placedOrders.filter (fun j =>
        match exceptO with
        | none => true
        | some i => j != i) }

/-- Classification of the fill-wait loop outcome. -/
inductive FillResult where
  | filled : FillResult
  | terminalFailed : FillResult
  | timedOut : FillResult
deriving Repr, DecidableEq

/-- The terminal failure statuses of line 309. -/
def terminalFailStatus (s : String) : Bool :=
  s == "canceled" || s == "expired" || s == "rejected"

/-- The fill-wait loop of lines 293-331 with explicit fuel: at second t
with remaining fuel, poll the order status; closed means filled, a
terminal failure status aborts, anything else (including a failed status
fetch) sleeps one second and retries; exhausted fuel is the timeout. -/
def waitFillAux (statusAt : ℕ → Option String) : ℕ → ℕ → FillResult
  | _, 0 => .timedOut
  | t, fuel + 1 =>
    match statusAt t with
    | none => waitFillAux statusAt (t + 1) fuel
    | some s =>
      if s == "closed" then .filled
      else if terminalFailStatus s then .terminalFailed
      else waitFillAux statusAt (t + 1) fuel

/-- The fill-wait loop outcome: max_wait is 60 seconds at one poll per
second (lines 294-298). -/
def waitFill (statusAt : ℕ → Option String) : FillResult :=
  waitFillAux statusAt 0 60

/-- Number of polls performed by the fill-wait loop. -/
def waitFillPollsAux (statusAt : ℕ → Option String) : ℕ → ℕ → ℕ
  | _, 0 => 0
  | t, fuel + 1 =>
    match statusAt t with
    | none => waitFillPollsAux statusAt (t + 1) fuel + 1
    | some s =>
      if s == "closed" then 1
      else if terminalFailStatus s then 1
      else waitFillPollsAux statusAt (t + 1) fuel + 1

/-- Poll count of the fill-wait loop. -/
def waitFillPolls (statusAt : ℕ → Option String) : ℕ :=
  waitFillPollsAux statusAt 0 60

/-- Helper bound: the loop with fuel f performs at most f polls. -/
theorem waitFillPollsAux_le (statusAt : ℕ → Option String) (t fuel : ℕ) :
    waitFillPollsAux statusAt t fuel ≤ fuel := by
  induction fuel generalizing t with
  | zero => simp [waitFillPollsAux]
  | succ f ih =>
    unfold waitFillPollsAux
    match h : statusAt t with
    | none => simpa using Nat.succ_le_succ (ih (t + 1))
    | some s =>
      by_cases hc : (s == "closed") = true
      · simp [hc]
      · by_cases ht : terminalFailStatus s = true
        · simp [hc, ht]
        · simpa [hc, ht] using Nat.succ_le_succ (ih (t + 1))

/-- The per-leg execution loop of lines 213-331, followed by the
COMPLETED update of line 334 when every leg filled. -/
def execLegs (env : ExecEnv) : List (ℕ × Leg) → ExecState → ExecState
  | [], st => { st with oppStatus := "COMPLETED" }
  | (i, leg) :: rest, st =>
    match env.ticker leg.exchange (legPair leg) with
    | none => { cancelPrev st none with oppStatus := "FAILED" }
    | some tk =>
      let cur := currentPrice leg.action tk
      if cur ≤ 0 then { cancelPrev st none with oppStatus := "FAILED" }
      else if driftBad leg.action leg.price cur then
        { cancelPrev st none with oppStatus := "FAILED" }
      else if !env.placeOrderOk i then
        { cancelPrev st none with oppStatus := "FAILED" }
      else
        let st1 := addTrade st i
        match waitFill (env.orderStatus i) with
        | .filled => execLegs env rest (setTrade st1 i .FILLED)
        | .terminalFailed =>
            { cancelPrev (setTrade st1 i .FAILED) (some i) with oppStatus := "FAILED" }
        | .timedOut =>
            { cancelPrev
                (setTrade { st1 with canceledOrders := st1.canceledOrders ++ [i] }
                  i .CANCELED) (some i) with oppStatus := "FAILED" }

/-- C5: for every leg, before any order is placed the coordinator checks
price drift against the planned price; when the side has moved
unfavorably beyond tolerance (buy: current > planned * 1.005, sell:
current < planned * 0.995) it aborts with the opportunity FAILED and
creates no Trade row for this or any later leg — in particular an abort
on leg 1 from the initial state leaves the Trade log empty. -/
theorem c5_drift_check_aborts_without_trade (env : ExecEnv) (i : ℕ) (leg : Leg)
    (rest : List (ℕ × Leg)) (st : ExecState) (tk : Ticker)
    (ht : env.ticker leg.exchange (legPair leg) = some tk)
    (hpos : 0 < currentPrice leg.action tk)
    (hd : driftBad leg.action leg.price (currentPrice leg.action tk) = true) :
    execLegs env ((i, leg) :: rest) st =
      { cancelPrev st none with oppStatus := "FAILED" } ∧
    (execLegs env ((i, leg) :: rest) st).trades = st.trades := by
  have hmain : execLegs env ((i, leg) :: rest) st =
      { cancelPrev st none with oppStatus := "FAILED" } := by
    unfold execLegs
    rw [ht]
    simp only [if_neg (not_le.mpr hpos), hd, if_true]
  exact ⟨hmain, by rw [hmain]; simp [cancelPrev]⟩

/-- Environment of the drift witness: cached ask 30200 against planned
buy price 30000 (above the 30150 tolerance). -/
def driftEnv : ExecEnv :=
  ⟨fun _ _ => some ⟨30190, 30200⟩, fun _ => true, fun _ _ => some "closed"⟩

/-- The planned first leg of the drift witness: buy BTC with USDT at
30000 on okx. -/
def driftLeg : Leg := ⟨"USDT", "BTC", "okx", .buy, 30000⟩

/-- Witness for c5_drift_check_aborts_without_trade: executing the single
planned leg from the initial state fails with no Trade row. -/
theorem c5_drift_check_witness :
    execLegs driftEnv [(0, driftLeg)] initExecState =
      { cancelPrev initExecState none with oppStatus := "FAILED" } ∧
    (execLegs driftEnv [(0, driftLeg)] initExecState).trades = [] :=
  c5_drift_check_aborts_without_trade driftEnv 0 driftLeg [] initExecState
    ⟨30190, 30200⟩ rfl (by norm_num [currentPrice, driftLeg])
    (by norm_num [driftBad, driftLeg, currentPrice])

/-- C8: after submitting a leg's limit order the coordinator polls the
order status once per second for at most 60 seconds (the poll count never
exceeds 60); a closed status marks the Trade FILLED and execution
advances to the remaining legs; a canceled, expired or rejected status
marks the Trade FAILED and the Opportunity FAILED and stops; when 60
seconds elapse with no terminal status the order is canceled, the Trade
marked CANCELED, the Opportunity FAILED, and no further leg is executed
(the returned state is final, with no trade beyond leg i created). -/
theorem c8_fill_wait_state_machine (env : ExecEnv) (i : ℕ) (leg : Leg)
    (rest : List (ℕ × Leg)) (st : ExecState) (tk : Ticker)
    (ht : env.ticker leg.exchange (legPair leg) = some tk)
    (hpos : 0 < currentPrice leg.action tk)
    (hd : driftBad leg.action leg.price (currentPrice leg.action tk) = false)
    (hord : env.placeOrderOk i = true) :
    waitFillPolls (env.orderStatus i) ≤ 60 ∧
    (waitFill (env.orderStatus i) = .filled →
      execLegs env ((i, leg) :: rest) st =
        execLegs env rest (setTrade (addTrade st i) i .FILLED)) ∧
    (waitFill (env.orderStatus i) = .terminalFailed →
      execLegs env ((i, leg) :: rest) st =
        { cancelPrev (setTrade (addTrade st i) i .FAILED) (some i) with
            oppStatus := "FAILED" }) ∧
    (waitFill (env.orderStatus i) = .timedOut →
      execLegs env ((i, leg) :: rest) st =
        { cancelPrev
            (setTrade { addTrade st i with
                canceledOrders := (addTrade st i).canceledOrders ++ [i] }
              i .CANCELED) (some i) with
            oppStatus := "FAILED" }) := by
  refine ⟨waitFillPollsAux_le _ 0 60, ?_, ?_, ?_⟩ <;> intro hw <;>
    (conv_lhs => unfold execLegs) <;> (rw [ht]; simp [not_le.mpr hpos, hd, hord, hw])

/-- Environment of the fill witness: the order closes on the first
poll. -/
def fillEnv : ExecEnv :=
  ⟨fun _ _ => some ⟨30000, 30010⟩, fun _ => true, fun _ _ => some "closed"⟩

/-- The leg of the fill witness: buy BTC with USDT at 30000 on okx. -/
def fillLeg : Leg := ⟨"USDT", "BTC", "okx", .buy, 30000⟩

/-- Witness for c8_fill_wait_state_machine: with an order that closes on
the first poll, the leg's Trade is marked FILLED and execution advances
past it. -/
theorem c8_fill_wait_witness :
    execLegs fillEnv [(0, fillLeg)] initExecState =
      execLegs fillEnv [] (setTrade (addTrade initExecState 0) 0 .FILLED) :=
  (c8_fill_wait_state_machine fillEnv 0 fillLeg [] initExecState ⟨30000, 30010⟩ rfl
    (by norm_num [currentPrice, fillLeg])
    (by norm_num [driftBad, fillLeg, currentPrice])
    rfl).2.1 rfl

/-! ### Funds router single-flight lock
(funds_router/main.py lines 296-380, common/redis_utils.py lines 201-226) -/

/-- The Redis lock table: lock key to holder identifier. -/
def Locks : Type := List (String × String)

/-- Value currently stored under a lock key. -/
def lockGet (locks : Locks) (key : String) : Option String :=
  ((locks : List (String × String)).find? (fun p => p.1 == key)).map Prod.snd

/-- acquire_lock of common/redis_utils.py lines 201-213: a SETNX-style
create of lock:name holding the caller identifier; returns none when the
key already exists. -/
def acquire_lock (locks : Locks) (name ident : String) : Option String × Locks :=
  let key := "lock:" ++ name
  match lockGet locks key with
  | some _ => (none, locks)
  | none => (some ident, ((key, ident) :: locks : List (String × String)))

/-- release_lock of common/redis_utils.py lines 215-226: delete the key
only when the stored value matches the caller identifier. -/
def release_lock (locks : Locks) (name ident : String) : Bool × Locks :=
  let key := "lock:" ++ name
  match lockGet locks key with
  | some cur =>
    if cur == ident then
      (true, ((locks : List (String × String)).filter (fun p => p.1 != key) : List (String × String)))
    else (false, locks)
  | none => (false, locks)

/-- External world of transfer_funds: the outcomes of its adapter and
database calls. get_balance, get_withdrawal_fee, get_deposit_address and
withdraw_funds catch their own exceptions and return None on failure;
add_fund_transfer and update_transfer_status can raise, modelled as
Except. -/
structure RouterEnv where
  balanceFree : Option ℚ
  withdrawalFee : Option ℚ
  depositAddress : Option String
  addTransfer : Except String ℕ
  withdrawResult : Option (Option String)
  updateStatus : Except String Unit

/-- The body of transfer_funds between lock acquisition and the finally
clause (funds_router/main.py lines 307-376): balance check, deposit
address discovery, Transfer persistence, withdrawal, status update.
Returns the function result (ok none for the silent aborts, ok (some id)
on success, error e when a database call raises), together with the
withdrawal attempts issued and the Transfer rows persisted. -/
def transferBody (env : RouterEnv) (fromEx cur : String) (amount : ℚ) :
    Except String (Option ℕ) × List (String × String × ℚ) × List ℕ :=
  match env.balanceFree with
  | none => (.ok none, [], [])
  | some free =>
    if free < amount then (.ok none, [], [])
    else
      match env.depositAddress with
      | none => (.ok none, [], [])
      | some addr =>
        if addr == "" then (.ok none, [], [])
        else
          match env.addTransfer with
          | .error e => (.error e, [], [])
          | .ok dbId =>
            match env.withdrawResult with
            | none =>
              match env.updateStatus with
              | .error e => (.error e, [(fromEx, cur, amount)], [dbId])
              | .ok _ => (.ok none, [(fromEx, cur, amount)], [dbId])
            | some _txid =>
              match env.updateStatus with
              | .error e => (.error e, [(fromEx, cur, amount)], [dbId])
              | .ok _ => (.ok (some dbId), [(fromEx, cur, amount)], [dbId])

/-- Result of one transfer_funds call: the returned or raised value, the
final lock table, the withdrawal attempts issued and the Transfer rows
persisted. -/
structure RouterOutcome where
  result : Except String (Option ℕ)
  locks : Locks
  withdrawalsIssued : List (String × String × ℚ)
  transfersPersisted : List ℕ

/-- transfer_funds of funds_router/main.py lines 296-380: acquire the
lock transfer_(from)_(currency); on failure return None immediately;
otherwise run the body and release the lock in the finally clause, on
every exit path including a raised exception. -/
def transfer_funds (env : RouterEnv) (locks : Locks) (fromEx cur : String)
    (amount : ℚ) (ident : String) : RouterOutcome :=
  let lockName := "transfer_" ++ fromEx ++ "_" ++ cur
  match acquire_lock locks lockName ident with
  | (none, locks1) =>
      { result := .ok none, locks := locks1,
        withdrawalsIssued := [], transfersPersisted := [] }
  | (some lid, locks1) =>
      let body := transferBody env fromEx cur amount
      let rel := release_lock locks1 lockName lid
      { result := body.1, locks := rel.2,
        withdrawalsIssued := body.2.1, transfersPersisted := body.2.2 }

/-- The single-flight lock key of a transfer from a venue in a
currency. -/
def transferLockKey (fromEx cur : String) : String :=
  "lock:" ++ ("transfer_" ++ fromEx ++ "_" ++ cur)

/-- C9: transfer_funds proceeds only after acquiring the single-flight
lock keyed by the source venue and currency: when the lock is already
held it returns None with no withdrawal issued, no Transfer persisted and
the lock table untouched; and when it acquires the lock, the lock is
released on every exit path — for every environment outcome, including
the insufficient-balance abort, the missing-deposit-address abort, a
failed withdrawal, and a raised database exception. -/
theorem c9_transfer_lock_single_flight (env : RouterEnv) (locks : Locks)
    (fromEx cur : String) (amount : ℚ) (ident : String) :
    ((lockGet locks (transferLockKey fromEx cur)).isSome →
      (transfer_funds env locks fromEx cur amount ident).result = .ok none ∧
      (transfer_funds env locks fromEx cur amount ident).withdrawalsIssued = [] ∧
      (transfer_funds env locks fromEx cur amount ident).transfersPersisted = [] ∧
      (transfer_funds env locks fromEx cur amount ident).locks = locks) ∧
    (lockGet locks (transferLockKey fromEx cur) = none →
      lockGet (transfer_funds env locks fromEx cur amount ident).locks
        (transferLockKey fromEx cur) = none) := by
  constructor
  · intro hheld
    obtain ⟨v, hv⟩ := Option.isSome_iff_exists.mp hheld
    rw [transferLockKey] at hv
    simp [transfer_funds, acquire_lock, hv]
  · intro hfree
    rw [transferLockKey] at hfree
    rw [transferLockKey]
    simp only [transfer_funds, acquire_lock, hfree]
    simp [release_lock, lockGet, List.find?]

/-- Environment of the lock witness: a transfer that would succeed. -/
def routerEnv : RouterEnv := ⟨some 10, some 1, some "addr1", .ok 7, some (some "tx1"), .ok ()⟩

/-- Witness for c9_transfer_lock_single_flight: with the lock already
held, no withdrawal is issued; starting from an empty lock table, the
lock is free again after the call. -/
theorem c9_transfer_lock_witness :
    (transfer_funds routerEnv
        ([(transferLockKey "okx" "USDT", "other")] : List (String × String))
        "okx" "USDT" 5 "me").withdrawalsIssued = [] ∧
    lockGet (transfer_funds routerEnv ([] : List (String × String))
        "okx" "USDT" 5 "me").locks (transferLockKey "okx" "USDT") = none :=
  ⟨((c9_transfer_lock_single_flight routerEnv
      ([(transferLockKey "okx" "USDT", "other")] : List (String × String))
      "okx" "USDT" 5 "me").1 (by simp [lockGet, transferLockKey])).2.1,
   (c9_transfer_lock_single_flight routerEnv ([] : List (String × String))
      "okx" "USDT" 5 "me").2 rfl⟩

end CryptoArb
